import Mathlib

/-!
Shallow embedding of the pymunk-swing-ai core (src/src/constants.py,
src/src/objects/swing.py, src/src/objects/stickman.py) together with the
collaborator interface it uses from pymunk (2D vectors, rigid bodies,
circle and segment shapes, pin joints, and the space that registers them).
Machine floats are modelled over the real numbers; the pymunk space is
modelled as the list of registered objects, each identified by a natural
number drawn from an explicit fresh-id counter.
-/

namespace PymunkSwing

/-- pymunk.vec2d.Vec2d: an (x, y) pair of floats, modelled over ℝ. -/
structure Vec2 where
  x : ℝ
  y : ℝ

def Vec2.add (v w : Vec2) : Vec2 := ⟨v.x + w.x, v.y + w.y⟩

def Vec2.neg (v : Vec2) : Vec2 := ⟨-v.x, -v.y⟩

def Vec2.sub (v w : Vec2) : Vec2 := ⟨v.x - w.x, v.y - w.y⟩

/-- Scalar multiplication `v * c` of a Vec2d by a float. -/
def Vec2.smul (v : Vec2) (c : ℝ) : Vec2 := ⟨v.x * c, v.y * c⟩

instance : Add Vec2 := ⟨Vec2.add⟩

instance : Neg Vec2 := ⟨Vec2.neg⟩

instance : Sub Vec2 := ⟨Vec2.sub⟩

def Vec2.zero : Vec2 := ⟨0, 0⟩

/-- Vec2d.length: the Euclidean norm. -/
noncomputable def Vec2.length (v : Vec2) : ℝ := Real.sqrt (v.x ^ 2 + v.y ^ 2)

/-- Vec2d.normalized_and_length: `(self / length, length)` when the length is
nonzero, and `(Vec2d(0, 0), 0)` for the zero vector. -/
noncomputable def Vec2.normalized_and_length (v : Vec2) : Vec2 × ℝ :=
  if v.length = 0 then (Vec2.zero, 0)
  else (⟨v.x / v.length, v.y / v.length⟩, v.length)

/-- Vec2d.rotated: rotation by an angle in radians. -/
noncomputable def Vec2.rotated (v : Vec2) (angle_radians : ℝ) : Vec2 :=
  ⟨v.x * Real.cos angle_radians - v.y * Real.sin angle_radians,
   v.x * Real.sin angle_radians + v.y * Real.cos angle_radians⟩

/-- src/constants.py: AIR_DENSITY = 0.45 -/
def AIR_DENSITY : ℝ := 0.45

/-- src/constants.py: DRAG_COEFFICIENT = 0.025 -/
def DRAG_COEFFICIENT : ℝ := 0.025

/-- src/constants.py: NORM_VECTOR = pymunk.Vec2d(0, -1) -/
def NORM_VECTOR : Vec2 := ⟨0, -1⟩

/-- src/constants.py: dir_vec rotates NORM_VECTOR by `angle * pi / 180`. -/
noncomputable def dir_vec (angle : ℝ) : Vec2 :=
  NORM_VECTOR.rotated (angle * Real.pi / 180)

/-- pymunk body types used by the core: dynamic (the default) and static. -/
inductive BodyType where
  | dynamic
  | static
deriving DecidableEq, Repr

/-- pymunk.Body as the core sees it: mass and moment set at construction,
position / velocity / force / torque mutable fields, and a body type.  The
`id` is the model's handle for registration in the space. -/
structure Body where
  id : ℕ
  mass : ℝ
  moment : ℝ
  position : Vec2
  velocity : Vec2
  force : Vec2
  torque : ℝ
  body_type : BodyType

/-- pymunk.Body(mass, moment): a dynamic body at the origin with zero
velocity and no accumulated force. -/
def Body.new (id : ℕ) (mass moment : ℝ) : Body :=
  ⟨id, mass, moment, Vec2.zero, Vec2.zero, Vec2.zero, 0, BodyType.dynamic⟩

/-- Vec2d cross product, used by force application for the torque term. -/
def Vec2.cross (v w : Vec2) : ℝ := v.x * w.y - v.y * w.x

/-- pymunk.Body.apply_force_at_world_point: accumulates the force on the body
and the induced torque about its center; position and velocity are not
touched. -/
def Body.apply_force_at_world_point (b : Body) (force point : Vec2) : Body :=
  { b with
    force := b.force.add force
    torque := b.torque + (point.sub b.position).cross force }

/-- pymunk.Circle(body, radius, offset): a disc shape. -/
structure Circle where
  id : ℕ
  radius : ℝ
  offset : Vec2
  filter_group : ℤ

/-- pymunk.Circle.area = π·r². -/
noncomputable def Circle.area (c : Circle) : ℝ := Real.pi * c.radius ^ 2

/-- pymunk.Segment(body, a, b, radius): a capsule shape. -/
structure SegShape where
  id : ℕ
  a : Vec2
  b : Vec2
  radius : ℝ
  filter_group : ℤ

/-- pymunk.Segment.area = r·(π·r + 2·dist(a, b)), the capsule area. -/
noncomputable def SegShape.area (s : SegShape) : ℝ :=
  s.radius * (Real.pi * s.radius + 2 * (s.b.sub s.a).length)

/-- pymunk.PinJoint(a, b, anchor_a): a pin constraint between two bodies,
identified here by the body ids. -/
structure PinJoint where
  id : ℕ
  body_a : ℕ
  body_b : ℕ
  anchor : Vec2

/-- A handle registered in a pymunk space: a body, a shape or a constraint. -/
inductive SpaceObj where
  | body (id : ℕ)
  | shape (id : ℕ)
  | constraint (id : ℕ)
deriving DecidableEq, Repr

/-- pymunk.Space as the core uses it: the list of registered objects, in
registration order. -/
structure Space where
  objects : List SpaceObj
deriving DecidableEq, Repr

def emptySpace : Space := ⟨[]⟩

/-- Space.add: registers objects (appended in order). -/
def Space.addObjs (s : Space) (os : List SpaceObj) : Space :=
  ⟨s.objects ++ os⟩

/-- Space.remove of a single object: pymunk asserts the object is currently
registered ("Object not in space") and unregisters it. -/
def Space.removeObj (s : Space) (o : SpaceObj) : Except String Space :=
  if o ∈ s.objects then Except.ok ⟨s.objects.erase o⟩
  else Except.error "Object not in space"

/-- Space.remove(*objs): removes each object in turn; the first object that
is not registered raises, abandoning the rest. -/
def Space.removeMany (s : Space) : List SpaceObj → Except String Space
  | [] => Except.ok s
  | o :: os =>
    match s.removeObj o with
    | Except.ok s1 => s1.removeMany os
    | Except.error e => Except.error e

/-- The number of constraint objects registered in a space. -/
def Space.constraintCount (s : Space) : ℕ :=
  (s.objects.filter fun o => match o with
    | SpaceObj.constraint _ => true
    | _ => false).length

/-- swing.py ChainLinkConfig. -/
structure ChainLinkConfig where
  mass : ℝ
  radius : ℝ
  shape_filter_group : ℤ

/-- swing.py ChainLink: one link of the swing's chain.  The space is threaded
explicitly through the operations rather than stored, and `ctr` arguments
supply fresh ids for created bodies / shapes / constraints. -/
structure ChainLink where
  chain_link_config : ChainLinkConfig
  start_pos : Vec2
  body : Body
  shape : Circle
  constraints : List PinJoint

noncomputable def ChainLink.area (l : ChainLink) : ℝ := l.shape.area

def ChainLink.position (l : ChainLink) : Vec2 := l.body.position

def ChainLink.velocity (l : ChainLink) : Vec2 := l.body.velocity

/-- The drag-force computation shared verbatim by ChainLink.drag_force,
Head.drag_force and Limb.drag_force:
`k = (AIR_DENSITY * DRAG_COEFFICIENT * area) / 2`,
`direction, speed = velocity.normalized_and_length()`,
`-direction * (k * speed ** 2)`. -/
noncomputable def dragForceCalc (area : ℝ) (velocity : Vec2) : Vec2 :=
  let k := (AIR_DENSITY * DRAG_COEFFICIENT * area) / 2
  let ds := velocity.normalized_and_length
  (ds.1.smul (k * ds.2 ^ 2)).neg

noncomputable def ChainLink.drag_force (l : ChainLink) : Vec2 :=
  dragForceCalc l.area l.velocity

/-- ChainLink._generate_body: `pymunk.Body(mass, radius / 2)` positioned at
`start_pos`.  Note the moment of inertia is literally `radius / 2`. -/
noncomputable def ChainLink.generate_body (cfg : ChainLinkConfig) (start_pos : Vec2)
    (id : ℕ) : Body :=
  { Body.new id cfg.mass (cfg.radius / 2) with position := start_pos }

/-- ChainLink._generate_shape: a circle of the configured radius on the body,
with the configured shape filter group. -/
def ChainLink.generate_shape (cfg : ChainLinkConfig) (id : ℕ) : Circle :=
  ⟨id, cfg.radius, Vec2.zero, cfg.shape_filter_group⟩

/-- ChainLink.generate: build the body and shape, register both with the
space, return the link (with no constraints).  No validation of mass or
radius is performed. -/
noncomputable def ChainLink.generate (space : Space) (ctr : ℕ) (start_pos : Vec2)
    (mass radius : ℝ) (shape_filter_group : ℤ) : ChainLink × Space × ℕ :=
  let cfg : ChainLinkConfig := ⟨mass, radius, shape_filter_group⟩
  let body := ChainLink.generate_body cfg start_pos ctr
  let shape := ChainLink.generate_shape cfg (ctr + 1)
  let space1 := space.addObjs [SpaceObj.body body.id, SpaceObj.shape shape.id]
  (⟨cfg, start_pos, body, shape, []⟩, space1, ctr + 2)

/-- ChainLink.static_link: generate, then set the body type to STATIC. -/
noncomputable def ChainLink.static_link (space : Space) (ctr : ℕ) (start_pos : Vec2)
    (mass radius : ℝ) (shape_filter_group : ℤ) : ChainLink × Space × ℕ :=
  let g := ChainLink.generate space ctr start_pos mass radius shape_filter_group
  ({ g.1 with body := { g.1.body with body_type := BodyType.static } },
    g.2.1, g.2.2)

/-- ChainLink.add_pinjoint: create a pin joint between the two bodies at the
given offset, register it with the space and append it to the link's
constraint list. -/
def ChainLink.add_pinjoint (l : ChainLink) (space : Space) (ctr : ℕ)
    (body_a body_b : ℕ) (offset : Vec2) : ChainLink × Space × ℕ :=
  let joint : PinJoint := ⟨ctr, body_a, body_b, offset⟩
  ({ l with constraints := l.constraints ++ [joint] },
    space.addObjs [SpaceObj.constraint joint.id], ctr + 1)

/-- ChainLink.dynamic_link: a link at
`other_link.body.position + dir_vec(angle) * length`, sharing the other
link's configuration, pin-jointed to the other link's body. -/
noncomputable def ChainLink.dynamic_link (other_link : ChainLink)
    (length angle : ℝ) (space : Space) (ctr : ℕ) : ChainLink × Space × ℕ :=
  let pos := other_link.body.position.add ((dir_vec angle).smul length)
  let g := ChainLink.generate space ctr pos other_link.chain_link_config.mass
    other_link.chain_link_config.radius
    other_link.chain_link_config.shape_filter_group
  g.1.add_pinjoint g.2.1 g.2.2 other_link.body.id g.1.body.id Vec2.zero

/-- ChainLink.update: apply the drag force at the body's current world
position.  The pair returned is the model's record of the one
force-application call this makes (force, point). -/
noncomputable def ChainLink.update (l : ChainLink) :
    ChainLink × (Vec2 × Vec2) :=
  ({ l with
      body := l.body.apply_force_at_world_point l.drag_force l.position },
    (l.drag_force, l.position))

/-- ChainLink.remove_from_space:
`space.remove(self.body, self.shape, *self.constraints)`. -/
def ChainLink.remove_from_space (l : ChainLink) (space : Space) :
    Except String Space :=
  space.removeMany (SpaceObj.body l.body.id :: SpaceObj.shape l.shape.id ::
    l.constraints.map fun j => SpaceObj.constraint j.id)

/-- swing.py swing configuration (data_types.SwingConfigType / the dict
Swing.create reads). -/
structure SwingConfig where
  start_angle : ℝ
  num_links : ℤ
  link_length : ℝ
  link_mass : ℝ
  link_radius : ℝ

/-- swing.py Swing: the ordered list of chain links. -/
structure Swing where
  start_pos : Vec2
  start_angle : ℝ
  num_links : ℤ
  link_length : ℝ
  links : List ChainLink

/-- The loop body of Swing._generate_links: `k` further dynamic links, each
appended after (and jointed to) the previous one. -/
noncomputable def buildDynamicLinks : ℕ → ChainLink → ℝ → ℝ → Space → ℕ →
    List ChainLink × Space × ℕ
  | 0, _, _, _, space, ctr => ([], space, ctr)
  | k + 1, prev, len, ang, space, ctr =>
    let d := ChainLink.dynamic_link prev len ang space ctr
    let rest := buildDynamicLinks k d.1 len ang d.2.1 d.2.2
    (d.1 :: rest.1, rest.2.1, rest.2.2)

/-- Swing._generate_links: one static link at the swing's start position,
then `range(1, num_links)` dynamic links (`max 0 (num_links - 1)`
iterations, matching Python's range). -/
noncomputable def Swing.generate_links (start_pos : Vec2) (start_angle : ℝ)
    (num_links : ℤ) (link_length mass radius : ℝ) (shape_filter_group : ℤ)
    (space : Space) (ctr : ℕ) : List ChainLink × Space × ℕ :=
  let s := ChainLink.static_link space ctr start_pos mass radius
    shape_filter_group
  let rest := buildDynamicLinks (num_links - 1).toNat s.1 link_length
    start_angle s.2.1 s.2.2
  (s.1 :: rest.1, rest.2.1, rest.2.2)

/-- Swing.create: builds the swing and generates its links. -/
noncomputable def Swing.create (cfg : SwingConfig) (space : Space)
    (start_pos : Vec2) (shape_filter_group : ℤ) (ctr : ℕ) :
    Swing × Space × ℕ :=
  let g := Swing.generate_links start_pos cfg.start_angle cfg.num_links
    cfg.link_length cfg.link_mass cfg.link_radius shape_filter_group space ctr
  (⟨start_pos, cfg.start_angle, cfg.num_links, cfg.link_length, g.1⟩,
    g.2.1, g.2.2)

/-- Swing.update: update every link; the returned list records the
force-application calls made, in order. -/
noncomputable def Swing.update (s : Swing) : Swing × List (Vec2 × Vec2) :=
  ({ s with links := s.links.map fun l => (l.update).1 },
    s.links.map fun l => (l.update).2)

/-- The loop of Swing.remove: `link.remove_from_space()` for every link, in
order; an error propagates (a Python exception aborts the loop). -/
def removeLinks : List ChainLink → Space → Except String Space
  | [], sp => Except.ok sp
  | l :: ls, sp =>
    match l.remove_from_space sp with
    | Except.ok sp1 => removeLinks ls sp1
    | Except.error e => Except.error e

/-- Swing.remove: `link.remove_from_space()` for every link, in order. -/
def Swing.remove (s : Swing) (space : Space) : Except String Space :=
  removeLinks s.links space

/-- data_types.HeadConfigType. -/
structure HeadConfigType where
  radius : ℝ
  mass : ℝ
  start_angle : ℝ
  angle_constraints : ℝ × ℝ

/-- data_types.LimbConfigType. -/
structure LimbConfigType where
  length : ℝ
  mass : ℝ
  start_angle : ℝ
  angle_constraints : ℝ × ℝ

/-- data_types.StickmanConfigType. -/
structure StickmanConfigType where
  head : HeadConfigType
  neck : LimbConfigType
  upper_arm : LimbConfigType
  lower_arm : LimbConfigType
  torso : LimbConfigType
  upper_leg : LimbConfigType
  lower_leg : LimbConfigType
  foot : LimbConfigType

/-- stickman.py HeadConfig. -/
structure HeadConfig where
  radius : ℝ
  mass : ℝ
  start_angle : ℝ
  angle_constraints : ℝ × ℝ
  shape_filter_group : ℤ

/-- HeadConfig.from_config. -/
def HeadConfig.from_config (c : HeadConfigType) (shape_filter_group : ℤ) :
    HeadConfig :=
  ⟨c.radius, c.mass, c.start_angle, c.angle_constraints, shape_filter_group⟩

/-- stickman.py LimbConfig. -/
structure LimbConfig where
  length : ℝ
  mass : ℝ
  start_angle : ℝ
  angle_constraints : ℝ × ℝ
  shape_filter_group : ℤ

/-- LimbConfig.from_config. -/
def LimbConfig.from_config (c : LimbConfigType) (shape_filter_group : ℤ) :
    LimbConfig :=
  ⟨c.length, c.mass, c.start_angle, c.angle_constraints, shape_filter_group⟩

/-- stickman.py Head: the disc-shaped head segment. -/
structure Head where
  head_config : HeadConfig
  start_pos : Vec2
  head_body : Body
  head_shape : Circle
  joint_motor : ℕ

noncomputable def Head.area (h : Head) : ℝ := h.head_shape.area

def Head.position (h : Head) : Vec2 := h.head_body.position

def Head.velocity (h : Head) : Vec2 := h.head_body.velocity

noncomputable def Head.drag_force (h : Head) : Vec2 :=
  dragForceCalc h.area h.velocity

/-- Head._generate_body: `pymunk.Body(mass, np.pi / 4 * radius ** 4)`. -/
noncomputable def Head.generate_body (cfg : HeadConfig) (start_pos : Vec2)
    (id : ℕ) : Body :=
  { Body.new id cfg.mass (Real.pi / 4 * cfg.radius ^ 4) with
    position := start_pos }

/-- Head._generate_shape: a circle offset by `dir_vec(start_angle) * radius`
from the body. -/
noncomputable def Head.generate_shape (cfg : HeadConfig) (id : ℕ)
    (shape_filter_group : ℤ) : Circle :=
  ⟨id, cfg.radius, (dir_vec cfg.start_angle).smul cfg.radius,
    shape_filter_group⟩

/-- Head.generate: build the body and shape, register both with the space.
No validation of mass or radius is performed. -/
noncomputable def Head.generate (space : Space) (ctr : ℕ) (start_pos : Vec2)
    (radius mass start_angle : ℝ) (angle_constraints : ℝ × ℝ)
    (shape_filter_group : ℤ) : Head × Space × ℕ :=
  let cfg : HeadConfig :=
    ⟨radius, mass, start_angle, angle_constraints, shape_filter_group⟩
  let body := Head.generate_body cfg start_pos ctr
  let shape := Head.generate_shape cfg (ctr + 1) shape_filter_group
  let space1 := space.addObjs [SpaceObj.body body.id, SpaceObj.shape shape.id]
  (⟨cfg, start_pos, body, shape, 1⟩, space1, ctr + 2)

/-- Head.from_config: `if offset: start_pos += offset` (a Vec2d is always
truthy, so any non-None offset is added), then generate. -/
noncomputable def Head.from_config (config : HeadConfig) (space : Space)
    (ctr : ℕ) (start_pos : Vec2) (offset : Option Vec2) : Head × Space × ℕ :=
  let start_pos1 := match offset with
    | some o => start_pos.add o
    | none => start_pos
  Head.generate space ctr start_pos1 config.radius config.mass
    config.start_angle config.angle_constraints config.shape_filter_group

noncomputable def Head.update (h : Head) : Head × (Vec2 × Vec2) :=
  ({ h with
      head_body := h.head_body.apply_force_at_world_point h.drag_force
        h.position },
    (h.drag_force, h.position))

/-- stickman.py Limb: a capsule-shaped limb segment. -/
structure Limb where
  limb_config : LimbConfig
  start_pos : Vec2
  limb_body : Body
  limb_segment : SegShape
  joint_motor : ℕ

/-- Limb.start_limb_position: the body's current position. -/
def Limb.start_limb_position (l : Limb) : Vec2 := l.limb_body.position

/-- Limb.end_limb_position:
`position + dir_vec(start_angle) * length`. -/
noncomputable def Limb.end_limb_position (l : Limb) : Vec2 :=
  l.limb_body.position.add
    ((dir_vec l.limb_config.start_angle).smul l.limb_config.length)

noncomputable def Limb.area (l : Limb) : ℝ := l.limb_segment.area

def Limb.position (l : Limb) : Vec2 := l.limb_body.position

def Limb.velocity (l : Limb) : Vec2 := l.limb_body.velocity

noncomputable def Limb.drag_force (l : Limb) : Vec2 :=
  dragForceCalc l.area l.velocity

noncomputable def Limb.update (l : Limb) : Limb × (Vec2 × Vec2) :=
  ({ l with
      limb_body := l.limb_body.apply_force_at_world_point l.drag_force
        l.position },
    (l.drag_force, l.position))

/-- Limb._generate_body: `pymunk.Body(mass, length / 12)`. -/
noncomputable def Limb.generate_body (cfg : LimbConfig) (start_pos : Vec2)
    (id : ℕ) : Body :=
  { Body.new id cfg.mass (cfg.length / 12) with position := start_pos }

/-- Limb._generate_shape:
`pymunk.Segment(body, (0, 0), dir_vec(start_angle) * length, 3)`. -/
noncomputable def Limb.generate_shape (cfg : LimbConfig) (id : ℕ)
    (shape_filter_group : ℤ) : SegShape :=
  ⟨id, Vec2.zero, (dir_vec cfg.start_angle).smul cfg.length, 3,
    shape_filter_group⟩

/-- Limb.generate: build the body and shape, register both with the space.
No validation of mass or length is performed. -/
noncomputable def Limb.generate (space : Space) (ctr : ℕ) (start_pos : Vec2)
    (length mass start_angle : ℝ) (angle_constraints : ℝ × ℝ)
    (shape_filter_group : ℤ) : Limb × Space × ℕ :=
  let cfg : LimbConfig :=
    ⟨length, mass, start_angle, angle_constraints, shape_filter_group⟩
  let body := Limb.generate_body cfg start_pos ctr
  let seg := Limb.generate_shape cfg (ctr + 1) shape_filter_group
  let space1 := space.addObjs [SpaceObj.body body.id, SpaceObj.shape seg.id]
  (⟨cfg, start_pos, body, seg, 1⟩, space1, ctr + 2)

/-- Limb.from_config: `if offset: start_pos += offset` (a Vec2d is always
truthy, so any non-None offset is added), then generate. -/
noncomputable def Limb.from_config (config : LimbConfig) (space : Space)
    (ctr : ℕ) (start_pos : Vec2) (offset : Option Vec2) : Limb × Space × ℕ :=
  let start_pos1 := match offset with
    | some o => start_pos.add o
    | none => start_pos
  Limb.generate space ctr start_pos1 config.length config.mass
    config.start_angle config.angle_constraints config.shape_filter_group

/-- stickman.py Stickman: the eight named parts. -/
structure Stickman where
  start_pos : Vec2
  head : Head
  neck : Limb
  upper_arm : Limb
  lower_arm : Limb
  torso : Limb
  lower_leg : Limb
  upper_leg : Limb
  foot : Limb

/-- A heterogeneous body part (the Python list mixes Head and Limb). -/
inductive BodyPart where
  | head (h : Head)
  | limb (l : Limb)

/-- Stickman.body_parts, in the source's order: head, neck, upper_arm,
lower_arm, torso, upper_leg, lower_leg, foot. -/
def Stickman.body_parts (s : Stickman) : List BodyPart :=
  [BodyPart.head s.head, BodyPart.limb s.neck, BodyPart.limb s.upper_arm,
    BodyPart.limb s.lower_arm, BodyPart.limb s.torso,
    BodyPart.limb s.upper_leg, BodyPart.limb s.lower_leg,
    BodyPart.limb s.foot]

noncomputable def BodyPart.update (p : BodyPart) : BodyPart × (Vec2 × Vec2) :=
  match p with
  | BodyPart.head h => (BodyPart.head (h.update).1, (h.update).2)
  | BodyPart.limb l => (BodyPart.limb (l.update).1, (l.update).2)

def BodyPart.position (p : BodyPart) : Vec2 :=
  match p with
  | BodyPart.head h => h.position
  | BodyPart.limb l => l.position

def BodyPart.velocity (p : BodyPart) : Vec2 :=
  match p with
  | BodyPart.head h => h.velocity
  | BodyPart.limb l => l.velocity

noncomputable def BodyPart.drag_force (p : BodyPart) : Vec2 :=
  match p with
  | BodyPart.head h => h.drag_force
  | BodyPart.limb l => l.drag_force

/-- Stickman.create, following the source's build order: foot at the anchor;
lower_leg at the foot's start with offset `-(0, lower_leg.length)`; upper_leg
at the lower leg's start with offset `-(upper_leg.length, 0)`; torso at the
upper leg's start with offset `-(0, torso.length)`; upper_arm and neck at the
torso's start with no offset; lower_arm at the upper arm's far endpoint; head
at the neck's far endpoint.  The final constructor call passes the legs
positionally as `..., torso, upper_leg, lower_leg, foot` against the field
order `..., torso, lower_leg, upper_leg, foot`, so the built upper-leg limb
lands in the `lower_leg` field and the built lower-leg limb in the
`upper_leg` field, exactly as in the source. -/
noncomputable def Stickman.create (config : StickmanConfigType) (space : Space)
    (start_pos : Vec2) (shape_filter_group : ℤ) (ctr : ℕ) :
    Stickman × Space × ℕ :=
  let head_config := HeadConfig.from_config config.head shape_filter_group
  let neck_config := LimbConfig.from_config config.neck shape_filter_group
  let upper_arm_config :=
    LimbConfig.from_config config.upper_arm shape_filter_group
  let lower_arm_config :=
    LimbConfig.from_config config.lower_arm shape_filter_group
  let torso_config := LimbConfig.from_config config.torso shape_filter_group
  let upper_leg_config :=
    LimbConfig.from_config config.upper_leg shape_filter_group
  let lower_leg_config :=
    LimbConfig.from_config config.lower_leg shape_filter_group
  let foot_config := LimbConfig.from_config config.foot shape_filter_group
  let f := Limb.from_config foot_config space ctr start_pos none
  let ll := Limb.from_config lower_leg_config f.2.1 f.2.2
    f.1.start_limb_position (some (Vec2.neg ⟨0, lower_leg_config.length⟩))
  let ul := Limb.from_config upper_leg_config ll.2.1 ll.2.2
    ll.1.start_limb_position (some (Vec2.neg ⟨upper_leg_config.length, 0⟩))
  let t := Limb.from_config torso_config ul.2.1 ul.2.2
    ul.1.start_limb_position (some (Vec2.neg ⟨0, torso_config.length⟩))
  let ua := Limb.from_config upper_arm_config t.2.1 t.2.2
    t.1.start_limb_position none
  let la := Limb.from_config lower_arm_config ua.2.1 ua.2.2
    ua.1.end_limb_position none
  let n := Limb.from_config neck_config la.2.1 la.2.2
    t.1.start_limb_position none
  let h := Head.from_config head_config n.2.1 n.2.2
    n.1.end_limb_position none
  (⟨start_pos, h.1, n.1, ua.1, la.1, t.1, ul.1, ll.1, f.1⟩, h.2.1, h.2.2)

/-- Stickman.update: update every body part; the returned list records the
force-application calls made, in order. -/
noncomputable def Stickman.update (s : Stickman) :
    Stickman × List (Vec2 × Vec2) :=
  (⟨s.start_pos, (s.head.update).1, (s.neck.update).1, (s.upper_arm.update).1,
      (s.lower_arm.update).1, (s.torso.update).1, (s.lower_leg.update).1,
      (s.upper_leg.update).1, (s.foot.update).1⟩,
    s.body_parts.map fun p => (p.update).2)

/-- The Stickman class defines only `create`, `update` and the `body_parts`
accessor: it has no remove / teardown operation at all.  The absent operation
is recorded as `none`. -/
def Stickman.removeOp : Option (Stickman → Space → Except String Space) :=
  none

theorem Vec2.length_nonneg (v : Vec2) : 0 ≤ v.length :=
  Real.sqrt_nonneg _

theorem Vec2.length_eq_zero_iff (v : Vec2) : v.length = 0 ↔ v = Vec2.zero := by
  unfold Vec2.length Vec2.zero
  constructor
  · intro h
    have hx : v.x ^ 2 + v.y ^ 2 = 0 := by
      have h0 : 0 ≤ v.x ^ 2 + v.y ^ 2 := by positivity
      have := (Real.sqrt_eq_zero h0).mp h
      exact this
    have hx1 : v.x = 0 := by nlinarith [sq_nonneg v.x, sq_nonneg v.y]
    have hy1 : v.y = 0 := by nlinarith [sq_nonneg v.x, sq_nonneg v.y]
    cases v
    simp_all
  · intro h
    rw [h]
    simp [Real.sqrt_eq_zero']

theorem Vec2.length_smul (v : Vec2) (c : ℝ) :
    (v.smul c).length = |c| * v.length := by
  unfold Vec2.smul Vec2.length
  have h : (v.x * c) ^ 2 + (v.y * c) ^ 2 = c ^ 2 * (v.x ^ 2 + v.y ^ 2) := by ring
  rw [h, Real.sqrt_mul (by positivity), Real.sqrt_sq_eq_abs]

theorem dragForceCalc_zero_velocity (area : ℝ) :
    dragForceCalc area Vec2.zero = Vec2.zero := by
  have h0 : Vec2.zero.length = 0 := (Vec2.length_eq_zero_iff _).mpr rfl
  unfold dragForceCalc Vec2.normalized_and_length
  rw [if_pos h0]
  simp [Vec2.smul, Vec2.neg, Vec2.zero]

theorem dragForceCalc_nonzero_velocity (area : ℝ) (v : Vec2)
    (hv : v ≠ Vec2.zero) :
    dragForceCalc area v =
      v.smul (-(AIR_DENSITY * DRAG_COEFFICIENT * area / 2 * v.length)) := by
  have hL : v.length ≠ 0 := fun h => hv ((Vec2.length_eq_zero_iff v).mp h)
  unfold dragForceCalc Vec2.normalized_and_length
  rw [if_neg hL]
  simp only [Vec2.smul, Vec2.neg, Vec2.mk.injEq]
  constructor <;> · field_simp; ring

theorem dragForceCalc_length (area : ℝ) (v : Vec2) (hv : v ≠ Vec2.zero)
    (ha : 0 ≤ area) :
    (dragForceCalc area v).length =
      AIR_DENSITY * DRAG_COEFFICIENT * area / 2 * v.length ^ 2 := by
  rw [dragForceCalc_nonzero_velocity area v hv, Vec2.length_smul]
  have hk : 0 ≤ AIR_DENSITY * DRAG_COEFFICIENT * area / 2 := by
    unfold AIR_DENSITY DRAG_COEFFICIENT
    positivity
  have hL : 0 ≤ v.length := v.length_nonneg
  rw [abs_neg, abs_of_nonneg (by positivity)]
  ring

theorem circle_area_nonneg (c : Circle) : 0 ≤ c.area := by
  unfold Circle.area
  positivity

theorem segshape_area_nonneg (s : SegShape) (h : 0 ≤ s.radius) :
    0 ≤ s.area := by
  unfold SegShape.area
  have := (s.b.sub s.a).length_nonneg
  have := Real.pi_pos
  positivity

/-- C9. `dir_vec` always returns a unit vector, and `dir_vec 0` is exactly the
fixed downward reference axis `NORM_VECTOR = (0, -1)`; the function is a total
pure function of its argument. -/
theorem dir_vec_unit_and_reference (angle : ℝ) :
    (dir_vec angle).length = 1 ∧ dir_vec 0 = NORM_VECTOR := by
  constructor
  · unfold dir_vec NORM_VECTOR Vec2.rotated Vec2.length
    have h : (0 * Real.cos (angle * Real.pi / 180) -
        (-1) * Real.sin (angle * Real.pi / 180)) ^ 2 +
        (0 * Real.sin (angle * Real.pi / 180) +
        (-1) * Real.cos (angle * Real.pi / 180)) ^ 2 = 1 := by
      have := Real.sin_sq_add_cos_sq (angle * Real.pi / 180)
      nlinarith [this]
    rw [h]
    exact Real.sqrt_one
  · unfold dir_vec NORM_VECTOR Vec2.rotated
    norm_num

/-- A sample dynamic body moving straight up at speed 3, for witnesses. -/
def sampleBody : Body :=
  ⟨0, 1, 1, Vec2.zero, ⟨0, 3⟩, Vec2.zero, 0, BodyType.dynamic⟩

/-- A sample chain link (radius-2 disc) with the sample body. -/
def sampleChainLink : ChainLink :=
  ⟨⟨1, 2, 0⟩, Vec2.zero, sampleBody, ⟨1, 2, Vec2.zero, 0⟩, []⟩

/-- A sample limb (length-10 capsule of radius 3) with a moving body. -/
def sampleLimb : Limb :=
  ⟨⟨10, 1, 0, (0, 0), 0⟩, Vec2.zero,
    ⟨2, 1, 1, Vec2.zero, ⟨0, 3⟩, Vec2.zero, 0, BodyType.dynamic⟩,
    ⟨3, Vec2.zero, ⟨10, 0⟩, 3, 0⟩, 1⟩

/-- A sample head (radius-2 disc) with a moving body. -/
def sampleHead : Head :=
  ⟨⟨2, 1, 0, (0, 0), 0⟩, Vec2.zero,
    ⟨4, 1, 1, Vec2.zero, ⟨0, 3⟩, Vec2.zero, 0, BodyType.dynamic⟩,
    ⟨5, 2, Vec2.zero, 0⟩, 1⟩

/-- C3. For every chain link, limb and head: with zero velocity the drag
force is the zero vector (no normalization of a zero-length vector occurs:
`normalized_and_length` returns `((0, 0), 0)` there); with nonzero velocity
the drag force is the velocity scaled by the nonpositive factor
`-(k * speed)` — hence anti-parallel to the velocity — and its magnitude is
`k * speed²`, where `k = AIR_DENSITY * DRAG_COEFFICIENT * area / 2` and
`area` is the shape's area. -/
theorem segment_drag_force_spec (cl : ChainLink) (lb : Limb) (hd : Head)
    (hlb : 0 ≤ lb.limb_segment.radius) :
    ((cl.velocity = Vec2.zero → cl.drag_force = Vec2.zero) ∧
      (cl.velocity ≠ Vec2.zero →
        cl.drag_force = cl.velocity.smul
          (-(AIR_DENSITY * DRAG_COEFFICIENT * cl.area / 2 *
            cl.velocity.length)) ∧
        cl.drag_force.length =
          AIR_DENSITY * DRAG_COEFFICIENT * cl.area / 2 *
            cl.velocity.length ^ 2)) ∧
    ((lb.velocity = Vec2.zero → lb.drag_force = Vec2.zero) ∧
      (lb.velocity ≠ Vec2.zero →
        lb.drag_force = lb.velocity.smul
          (-(AIR_DENSITY * DRAG_COEFFICIENT * lb.area / 2 *
            lb.velocity.length)) ∧
        lb.drag_force.length =
          AIR_DENSITY * DRAG_COEFFICIENT * lb.area / 2 *
            lb.velocity.length ^ 2)) ∧
    ((hd.velocity = Vec2.zero → hd.drag_force = Vec2.zero) ∧
      (hd.velocity ≠ Vec2.zero →
        hd.drag_force = hd.velocity.smul
          (-(AIR_DENSITY * DRAG_COEFFICIENT * hd.area / 2 *
            hd.velocity.length)) ∧
        hd.drag_force.length =
          AIR_DENSITY * DRAG_COEFFICIENT * hd.area / 2 *
            hd.velocity.length ^ 2)) := by
  refine ⟨⟨?_, ?_⟩, ⟨?_, ?_⟩, ⟨?_, ?_⟩⟩
  · intro h
    unfold ChainLink.drag_force
    rw [h]
    exact dragForceCalc_zero_velocity _
  · intro h
    exact ⟨dragForceCalc_nonzero_velocity _ _ h,
      dragForceCalc_length _ _ h (circle_area_nonneg _)⟩
  · intro h
    unfold Limb.drag_force
    rw [h]
    exact dragForceCalc_zero_velocity _
  · intro h
    exact ⟨dragForceCalc_nonzero_velocity _ _ h,
      dragForceCalc_length _ _ h (segshape_area_nonneg _ hlb)⟩
  · intro h
    unfold Head.drag_force
    rw [h]
    exact dragForceCalc_zero_velocity _
  · intro h
    exact ⟨dragForceCalc_nonzero_velocity _ _ h,
      dragForceCalc_length _ _ h (circle_area_nonneg _)⟩

theorem segment_drag_force_spec_witness :
    sampleChainLink.drag_force = sampleChainLink.velocity.smul
      (-(AIR_DENSITY * DRAG_COEFFICIENT * sampleChainLink.area / 2 *
        sampleChainLink.velocity.length)) :=
  ((segment_drag_force_spec sampleChainLink sampleLimb sampleHead
      (by norm_num [sampleLimb])).1.2
    (by simp [sampleChainLink, sampleBody, ChainLink.velocity, Vec2.zero,
      Vec2.mk.injEq])).1

/-- C5 (amended). Segment construction performs no validation at all: for
every configuration — non-positive mass, length and radius included — the
generate operations of ChainLink, Limb and Head build the body with exactly
the given mass and register the body and shape with the space; no error is
reported. -/
theorem segment_generate_no_validation (space : Space) (ctr : ℕ)
    (start_pos : Vec2) (mass radius len ang : ℝ) (ac : ℝ × ℝ) (g : ℤ) :
    ((ChainLink.generate space ctr start_pos mass radius g).1.body.mass =
        mass ∧
      (ChainLink.generate space ctr start_pos mass radius g).2.1 =
        space.addObjs [SpaceObj.body ctr, SpaceObj.shape (ctr + 1)]) ∧
    ((Limb.generate space ctr start_pos len mass ang ac g).1.limb_body.mass =
        mass ∧
      (Limb.generate space ctr start_pos len mass ang ac g).2.1 =
        space.addObjs [SpaceObj.body ctr, SpaceObj.shape (ctr + 1)]) ∧
    ((Head.generate space ctr start_pos radius mass ang ac g).1.head_body.mass
        = mass ∧
      (Head.generate space ctr start_pos radius mass ang ac g).2.1 =
        space.addObjs [SpaceObj.body ctr, SpaceObj.shape (ctr + 1)]) :=
  ⟨⟨rfl, rfl⟩, ⟨rfl, rfl⟩, ⟨rfl, rfl⟩⟩

/-- C5 counterexample. With mass −1 and radius/length −2 — squarely inside
the claim's "non-positive" range — construction does not fail: the body is
built with mass −1 and both objects are registered, for the chain link and
for the limb. -/
theorem segment_generate_accepts_nonpositive :
    (ChainLink.generate emptySpace 0 Vec2.zero (-1) (-2) 0).1.body.mass =
      -1 ∧
    (ChainLink.generate emptySpace 0 Vec2.zero (-1) (-2) 0).2.1.objects =
      [SpaceObj.body 0, SpaceObj.shape 1] ∧
    (Limb.generate emptySpace 0 Vec2.zero (-2) (-1) 0 (0, 0) 0).1.limb_body.mass = -1 ∧
    (Limb.generate emptySpace 0 Vec2.zero (-2) (-1) 0 (0, 0) 0).2.1.objects =
      [SpaceObj.body 0, SpaceObj.shape 1] :=
  ⟨rfl, rfl, rfl, rfl⟩

/-- C7 (amended). The moment of inertia each `_generate_body` passes to
`pymunk.Body`: the head uses the disc-style formula `π/4 · radius⁴`, the limb
the thin-rod-style `length / 12` — but the chain link, although disc-shaped,
uses `radius / 2`, not a `π/4 · radius⁴`-style formula. -/
theorem segment_moment_formulas (hc : HeadConfig) (lc : LimbConfig)
    (cc : ChainLinkConfig) (p : Vec2) (i j k : ℕ) :
    (Head.generate_body hc p i).moment = Real.pi / 4 * hc.radius ^ 4 ∧
    (Limb.generate_body lc p j).moment = lc.length / 12 ∧
    (ChainLink.generate_body cc p k).moment = cc.radius / 2 :=
  ⟨rfl, rfl, rfl⟩

/-- C7 counterexample. A chain link of radius 2 gets moment `2 / 2 = 1`,
which is not the disc-style value `π/4 · 2⁴ = 4π`. -/
theorem chain_link_moment_not_disc_style :
    (ChainLink.generate emptySpace 0 Vec2.zero 1 2 0).1.body.moment = 2 / 2 ∧
    (2 / 2 : ℝ) ≠ Real.pi / 4 * 2 ^ 4 := by
  refine ⟨rfl, fun h => ?_⟩
  have hpi := Real.pi_gt_three
  nlinarith [hpi]

/-- The id of a registered object. -/
def SpaceObj.objId : SpaceObj → ℕ
  | SpaceObj.body i => i
  | SpaceObj.shape i => i
  | SpaceObj.constraint i => i

/-- How a dynamic link follows its predecessor: created at the predecessor's
position plus `dir_vec(start_angle) * link_length`, dynamic, and carrying
exactly one pin joint, from the predecessor's body to its own body. -/
def dynSucc (len ang : ℝ) (a b : ChainLink) : Prop :=
  b.body.position = a.body.position.add ((dir_vec ang).smul len) ∧
  b.body.body_type = BodyType.dynamic ∧
  ∃ jid, b.constraints = [⟨jid, a.body.id, b.body.id, Vec2.zero⟩]

theorem buildDynamicLinks_length (k : ℕ) :
    ∀ (prev : ChainLink) (len ang : ℝ) (sp : Space) (c : ℕ),
    (buildDynamicLinks k prev len ang sp c).1.length = k := by
  induction k with
  | zero => intro prev len ang sp c; rfl
  | succ k ih =>
    intro prev len ang sp c
    simp only [buildDynamicLinks, List.length_cons, ih]

theorem buildDynamicLinks_chain (k : ℕ) :
    ∀ (prev : ChainLink) (len ang : ℝ) (sp : Space) (c : ℕ),
    List.Chain (dynSucc len ang) prev
      (buildDynamicLinks k prev len ang sp c).1 := by
  induction k with
  | zero => intro prev len ang sp c; exact List.Chain.nil
  | succ k ih =>
    intro prev len ang sp c
    refine List.Chain.cons ⟨rfl, rfl, ⟨c + 2, rfl⟩⟩ (ih _ _ _ _ _)

theorem buildDynamicLinks_constraint_sum (k : ℕ) :
    ∀ (prev : ChainLink) (len ang : ℝ) (sp : Space) (c : ℕ),
    ((buildDynamicLinks k prev len ang sp c).1.map
      fun l => l.constraints.length).sum = k := by
  induction k with
  | zero => intro prev len ang sp c; rfl
  | succ k ih =>
    intro prev len ang sp c
    simp only [buildDynamicLinks, List.map_cons, List.sum_cons, ih]
    have h1 : (prev.dynamic_link len ang sp c).1.constraints.length = 1 := rfl
    omega

/-- The objects `k` consecutive dynamic links register, ids from `c`:
body, shape, constraint, body, shape, constraint, ... -/
def dynObjs : ℕ → ℕ → List SpaceObj
  | 0, _ => []
  | k + 1, c => SpaceObj.body c :: SpaceObj.shape (c + 1) ::
      SpaceObj.constraint (c + 2) :: dynObjs k (c + 3)

theorem buildDynamicLinks_space (k : ℕ) :
    ∀ (prev : ChainLink) (len ang : ℝ) (sp : Space) (c : ℕ),
    (buildDynamicLinks k prev len ang sp c).2.1 =
      Space.mk (sp.objects ++ dynObjs k c) := by
  induction k with
  | zero => intro prev len ang sp c; simp [buildDynamicLinks, dynObjs]
  | succ k ih =>
    intro prev len ang sp c
    simp only [buildDynamicLinks, dynObjs]
    rw [ih]
    simp [ChainLink.dynamic_link, ChainLink.generate, ChainLink.add_pinjoint,
      ChainLink.generate_body, ChainLink.generate_shape, Body.new,
      Space.addObjs]

theorem removeObj_fresh (pre rest : List SpaceObj) (o : SpaceObj)
    (h : o ∉ pre) :
    Space.removeObj ⟨pre ++ o :: rest⟩ o = Except.ok ⟨pre ++ rest⟩ := by
  unfold Space.removeObj
  rw [if_pos (by simp)]
  have he : (pre ++ o :: rest).erase o = pre ++ rest := by
    rw [List.erase_append_right _ h, List.erase_cons_head]
  simp [he]

theorem removeMany_cons (s s1 : Space) (o : SpaceObj) (os : List SpaceObj)
    (h : s.removeObj o = Except.ok s1) :
    s.removeMany (o :: os) = s1.removeMany os := by
  rw [Space.removeMany.eq_def]
  simp only [h]

theorem removeLinks_restores (k : ℕ) :
    ∀ (prev : ChainLink) (len ang : ℝ) (sp : Space) (c : ℕ)
      (pre : List SpaceObj), (∀ o ∈ pre, o.objId < c) →
    removeLinks (buildDynamicLinks k prev len ang sp c).1
      ⟨pre ++ dynObjs k c⟩ = Except.ok ⟨pre⟩ := by
  induction k with
  | zero =>
    intro prev len ang sp c pre hpre
    simp [buildDynamicLinks, removeLinks, dynObjs]
  | succ k ih =>
    intro prev len ang sp c pre hpre
    have hb : SpaceObj.body c ∉ pre := fun h => by
      have := hpre _ h
      simp [SpaceObj.objId] at this
    have hs : SpaceObj.shape (c + 1) ∉ pre := fun h => by
      have := hpre _ h
      simp [SpaceObj.objId] at this
    have hc : SpaceObj.constraint (c + 2) ∉ pre := fun h => by
      have := hpre _ h
      simp [SpaceObj.objId] at this
    have hrm : (ChainLink.dynamic_link prev len ang sp c).1.remove_from_space
        ⟨pre ++ SpaceObj.body c :: SpaceObj.shape (c + 1) ::
          SpaceObj.constraint (c + 2) :: dynObjs k (c + 3)⟩ =
        Except.ok ⟨pre ++ dynObjs k (c + 3)⟩ := by
      show Space.removeMany _ (SpaceObj.body c :: SpaceObj.shape (c + 1) ::
        [SpaceObj.constraint (c + 2)]) = _
      rw [removeMany_cons _ _ _ _ (removeObj_fresh pre _ _ hb),
        removeMany_cons _ _ _ _ (removeObj_fresh pre _ _ hs),
        removeMany_cons _ _ _ _ (removeObj_fresh pre _ _ hc)]
      rfl
    show removeLinks ((ChainLink.dynamic_link prev len ang sp c).1 ::
      (buildDynamicLinks k (ChainLink.dynamic_link prev len ang sp c).1 len
        ang (ChainLink.dynamic_link prev len ang sp c).2.1
        (ChainLink.dynamic_link prev len ang sp c).2.2).1)
      ⟨pre ++ SpaceObj.body c :: SpaceObj.shape (c + 1) ::
        SpaceObj.constraint (c + 2) :: dynObjs k (c + 3)⟩ = Except.ok ⟨pre⟩
    unfold removeLinks
    rw [hrm]
    exact ih _ len ang _ (c + 3) pre fun o ho => by
      have := hpre o ho
      omega

theorem generate_links_remove (start_pos : Vec2) (ang : ℝ) (n : ℤ)
    (len m r : ℝ) (g : ℤ) (sp : Space) (c : ℕ)
    (hpre : ∀ o ∈ sp.objects, o.objId < c) :
    removeLinks (Swing.generate_links start_pos ang n len m r g sp c).1
      (Swing.generate_links start_pos ang n len m r g sp c).2.1 =
      Except.ok sp := by
  have hsp : (Swing.generate_links start_pos ang n len m r g sp c).2.1 =
      Space.mk ((sp.objects ++ [SpaceObj.body c, SpaceObj.shape (c + 1)]) ++
        dynObjs (n - 1).toNat (c + 2)) := by
    show (buildDynamicLinks _ _ _ _ _ _).2.1 = _
    rw [buildDynamicLinks_space]
    rfl
  have hb : SpaceObj.body c ∉ sp.objects := fun h => by
    have := hpre _ h
    simp [SpaceObj.objId] at this
  have hs : SpaceObj.shape (c + 1) ∉ sp.objects := fun h => by
    have := hpre _ h
    simp [SpaceObj.objId] at this
  have hrm : (ChainLink.static_link sp c start_pos m r
      g).1.remove_from_space
      ⟨(sp.objects ++ [SpaceObj.body c, SpaceObj.shape (c + 1)]) ++
        dynObjs (n - 1).toNat (c + 2)⟩ =
      Except.ok ⟨sp.objects ++ dynObjs (n - 1).toNat (c + 2)⟩ := by
    show Space.removeMany _ (SpaceObj.body c :: [SpaceObj.shape (c + 1)]) = _
    have e1 : (sp.objects ++ [SpaceObj.body c, SpaceObj.shape (c + 1)]) ++
        dynObjs (n - 1).toNat (c + 2) =
        sp.objects ++ SpaceObj.body c :: SpaceObj.shape (c + 1) ::
          dynObjs (n - 1).toNat (c + 2) := by
      simp
    rw [e1, removeMany_cons _ _ _ _ (removeObj_fresh sp.objects _ _ hb),
      removeMany_cons _ _ _ _ (removeObj_fresh sp.objects _ _ hs)]
    rfl
  show removeLinks ((ChainLink.static_link sp c start_pos m r g).1 ::
      (buildDynamicLinks (n - 1).toNat
        (ChainLink.static_link sp c start_pos m r g).1 len ang
        (ChainLink.static_link sp c start_pos m r g).2.1
        (ChainLink.static_link sp c start_pos m r g).2.2).1)
      (Swing.generate_links start_pos ang n len m r g sp c).2.1 =
      Except.ok sp
  rw [hsp]
  unfold removeLinks
  rw [hrm]
  exact removeLinks_restores _ _ len ang _ (c + 2) sp.objects fun o ho => by
    have := hpre o ho
    omega

/-- C2. A Swing built with `num_links = N ≥ 1` has exactly N links; link 0 is
the static link (no constraints, placed at the start position); the other
`N − 1` links carry exactly one pin joint each — `N − 1` joints in all — and
`dynSucc` along the list says each link i is created at link (i−1)'s position
plus `dir_vec(start_angle) * link_length` and is pin-jointed from link
(i−1)'s body to its own body.  With `N = 1` this gives one static link and
zero joints. -/
theorem swing_create_structure (cfg : SwingConfig) (space : Space)
    (start_pos : Vec2) (g : ℤ) (ctr : ℕ) (N : ℕ) (h1 : 1 ≤ N)
    (hN : cfg.num_links = (N : ℤ)) :
    ∃ l0 rest,
      (Swing.create cfg space start_pos g ctr).1.links = l0 :: rest ∧
      (Swing.create cfg space start_pos g ctr).1.links.length = N ∧
      l0.body.body_type = BodyType.static ∧
      l0.constraints = [] ∧
      l0.body.position = start_pos ∧
      rest.length = N - 1 ∧
      List.Chain (dynSucc cfg.link_length cfg.start_angle) l0 rest ∧
      (((Swing.create cfg space start_pos g ctr).1.links.map
        fun l => l.constraints.length).sum = N - 1) := by
  have hm : (cfg.num_links - 1).toNat = N - 1 := by
    rw [hN]
    omega
  refine ⟨_, _, rfl, ?_, rfl, rfl, rfl, ?_, ?_, ?_⟩
  · simp only [Swing.create, Swing.generate_links, List.length_cons,
      buildDynamicLinks_length, hm]
    omega
  · rw [buildDynamicLinks_length, hm]
  · exact buildDynamicLinks_chain _ _ _ _ _ _
  · simp only [Swing.create, Swing.generate_links, List.map_cons,
      List.sum_cons, buildDynamicLinks_constraint_sum, hm]
    have h0 : (ChainLink.static_link space ctr start_pos cfg.link_mass
        cfg.link_radius g).1.constraints.length = 0 := rfl
    omega

/-- A sample swing configuration with three links. -/
def sampleSwingConfig : SwingConfig := ⟨15, 3, 50, 1, 5⟩

theorem swing_create_structure_witness :
    ∃ l0 rest,
      (Swing.create sampleSwingConfig emptySpace ⟨300, 50⟩ 1 0).1.links =
        l0 :: rest ∧
      (Swing.create sampleSwingConfig emptySpace ⟨300, 50⟩ 1 0).1.links.length
        = 3 ∧
      l0.body.body_type = BodyType.static ∧
      l0.constraints = [] ∧
      l0.body.position = ⟨300, 50⟩ ∧
      rest.length = 3 - 1 ∧
      List.Chain (dynSucc sampleSwingConfig.link_length
        sampleSwingConfig.start_angle) l0 rest ∧
      (((Swing.create sampleSwingConfig emptySpace ⟨300, 50⟩ 1 0).1.links.map
        fun l => l.constraints.length).sum = 3 - 1) :=
  swing_create_structure sampleSwingConfig emptySpace ⟨300, 50⟩ 1 0 3
    (by decide) rfl

/-- C10. `Swing.create` builds the static anchor link unconditionally: for
every `num_links ≤ 1` (0 and negative values included) it succeeds — the
model is a total function, as the Python loop `range(1, num_links)` is simply
empty — and produces exactly one static, joint-free link, registering only
that link's body and shape. -/
theorem swing_create_nonpositive_num_links (cfg : SwingConfig)
    (space : Space) (start_pos : Vec2) (g : ℤ) (ctr : ℕ)
    (h : cfg.num_links ≤ 1) :
    ∃ l0,
      (Swing.create cfg space start_pos g ctr).1.links = [l0] ∧
      l0.body.body_type = BodyType.static ∧
      l0.constraints = [] ∧
      l0.body.position = start_pos ∧
      (Swing.create cfg space start_pos g ctr).2.1 =
        space.addObjs [SpaceObj.body ctr, SpaceObj.shape (ctr + 1)] := by
  have hm : (cfg.num_links - 1).toNat = 0 := by omega
  refine ⟨(ChainLink.static_link space ctr start_pos cfg.link_mass
      cfg.link_radius g).1, ?_, rfl, rfl, rfl, ?_⟩
  · show (_ : ChainLink) ::
      (buildDynamicLinks (cfg.num_links - 1).toNat _ _ _ _ _).1 = _
    rw [hm]
    rfl
  · show (buildDynamicLinks (cfg.num_links - 1).toNat _ _ _ _ _).2.1 = _
    rw [hm]
    rfl

/-- A sample swing configuration asking for zero links. -/
def sampleSwingConfigZero : SwingConfig := ⟨15, 0, 50, 1, 5⟩

theorem swing_create_nonpositive_num_links_witness :
    ∃ l0,
      (Swing.create sampleSwingConfigZero emptySpace ⟨300, 50⟩ 1 0).1.links =
        [l0] ∧
      l0.body.body_type = BodyType.static ∧
      l0.constraints = [] ∧
      l0.body.position = ⟨300, 50⟩ ∧
      (Swing.create sampleSwingConfigZero emptySpace ⟨300, 50⟩ 1 0).2.1 =
        emptySpace.addObjs [SpaceObj.body 0, SpaceObj.shape 1] :=
  swing_create_nonpositive_num_links sampleSwingConfigZero emptySpace
    ⟨300, 50⟩ 1 0 (by decide)

/-- C4 (amended, Swing part).  Building a Swing in an empty space and then
calling `remove` returns the space exactly to its pre-build state: every
body, shape and joint the swing registered is unregistered again, leaving no
dangling handle. -/
theorem swing_remove_restores_space (cfg : SwingConfig) (start_pos : Vec2)
    (g : ℤ) :
    Swing.remove (Swing.create cfg emptySpace start_pos g 0).1
      (Swing.create cfg emptySpace start_pos g 0).2.1 =
      Except.ok emptySpace := by
  show removeLinks
    (Swing.generate_links start_pos cfg.start_angle cfg.num_links
      cfg.link_length cfg.link_mass cfg.link_radius g emptySpace 0).1
    (Swing.generate_links start_pos cfg.start_angle cfg.num_links
      cfg.link_length cfg.link_mass cfg.link_radius g emptySpace 0).2.1 = _
  exact generate_links_remove start_pos cfg.start_angle cfg.num_links
    cfg.link_length cfg.link_mass cfg.link_radius g emptySpace 0
    (fun o ho => absurd ho (List.not_mem_nil o))

/-- C4 counterexample (Stickman part).  The claim quantifies over both
composites, but the Stickman class has no remove operation at all — its
teardown slot is `none` — so "building a Stickman and immediately calling its
remove operation" is impossible and the claim fails for the Stickman
composite. -/
theorem stickman_has_no_remove : Stickman.removeOp = none := rfl

/-- C1 (amended).  Stickman construction places the leg chain by fixed
world-space offsets, independent of every part's own `start_angle` (the
angles stay universally quantified here): from foot anchor `(100, 500)` with
`lower_leg.length = 80`, `upper_leg.length = 80`, `torso.length = 100`, the
foot body is at `(100, 500)`, the limb built as the lower leg at
`(100, 420) = (100, 500 − 80)`, the limb built as the upper leg at
`(20, 420)`, and the torso at `(20, 320)` — not `(100, 480)/(20, 480)/(20,
400)` as claimed.  Because `Stickman.create` passes the two leg limbs in
swapped positions, the limb built as the lower leg is read back through the
`upper_leg` field and vice versa. -/
theorem stickman_world_offset_placement (config : StickmanConfigType)
    (space : Space) (g : ℤ) (ctr : ℕ)
    (hll : config.lower_leg.length = 80)
    (hul : config.upper_leg.length = 80)
    (ht : config.torso.length = 100) :
    (Stickman.create config space ⟨100, 500⟩ g ctr).1.foot.limb_body.position
      = ⟨100, 500⟩ ∧
    (Stickman.create config space ⟨100, 500⟩ g
      ctr).1.upper_leg.limb_body.position = ⟨100, 420⟩ ∧
    (Stickman.create config space ⟨100, 500⟩ g
      ctr).1.lower_leg.limb_body.position = ⟨20, 420⟩ ∧
    (Stickman.create config space ⟨100, 500⟩ g
      ctr).1.torso.limb_body.position = ⟨20, 320⟩ := by
  simp only [Stickman.create, Limb.from_config, Limb.generate,
    Limb.generate_body, Limb.start_limb_position, Body.new,
    LimbConfig.from_config, hll, hul, ht, Vec2.add, Vec2.neg, Vec2.mk.injEq]
  norm_num

/-- A sample stickman configuration with the lengths of the C1 example and
nonzero start angles everywhere. -/
def sampleStickmanConfig : StickmanConfigType :=
  ⟨⟨10, 1, 30, (0, 0)⟩,
   ⟨15, 1, 15, (0, 0)⟩,
   ⟨30, 1, 90, (0, 0)⟩,
   ⟨30, 1, 45, (0, 0)⟩,
   ⟨100, 1, 5, (0, 0)⟩,
   ⟨80, 1, 25, (0, 0)⟩,
   ⟨80, 1, 60, (0, 0)⟩,
   ⟨20, 1, 90, (0, 0)⟩⟩

theorem stickman_world_offset_placement_witness :
    (Stickman.create sampleStickmanConfig emptySpace ⟨100, 500⟩ 5
      0).1.foot.limb_body.position = ⟨100, 500⟩ ∧
    (Stickman.create sampleStickmanConfig emptySpace ⟨100, 500⟩ 5
      0).1.upper_leg.limb_body.position = ⟨100, 420⟩ ∧
    (Stickman.create sampleStickmanConfig emptySpace ⟨100, 500⟩ 5
      0).1.lower_leg.limb_body.position = ⟨20, 420⟩ ∧
    (Stickman.create sampleStickmanConfig emptySpace ⟨100, 500⟩ 5
      0).1.torso.limb_body.position = ⟨20, 320⟩ :=
  stickman_world_offset_placement sampleStickmanConfig emptySpace 5 0
    rfl rfl rfl

/-- C1 counterexample.  At the claim's own example (anchor `(100, 500)`,
`foot = 20`, `lower_leg = 80`, `upper_leg = 80`, `torso = 100`) none of the
claimed positions holds, under either reading of the leg names (the limb as
built, or the like-named — swapped — field of the result): no leg limb is at
`(100, 480)` or `(20, 480)`, and the torso is not at `(20, 400)`. -/
theorem stickman_claimed_positions_false :
    (Stickman.create sampleStickmanConfig emptySpace ⟨100, 500⟩ 5
      0).1.upper_leg.limb_body.position ≠ ⟨100, 480⟩ ∧
    (Stickman.create sampleStickmanConfig emptySpace ⟨100, 500⟩ 5
      0).1.lower_leg.limb_body.position ≠ ⟨100, 480⟩ ∧
    (Stickman.create sampleStickmanConfig emptySpace ⟨100, 500⟩ 5
      0).1.upper_leg.limb_body.position ≠ ⟨20, 480⟩ ∧
    (Stickman.create sampleStickmanConfig emptySpace ⟨100, 500⟩ 5
      0).1.lower_leg.limb_body.position ≠ ⟨20, 480⟩ ∧
    (Stickman.create sampleStickmanConfig emptySpace ⟨100, 500⟩ 5
      0).1.torso.limb_body.position ≠ ⟨20, 400⟩ := by
  simp only [Stickman.create, Limb.from_config, Limb.generate,
    Limb.generate_body, Limb.start_limb_position, Body.new,
    LimbConfig.from_config, sampleStickmanConfig, Vec2.add, Vec2.neg, ne_eq,
    Vec2.mk.injEq]
  norm_num

/-- A space holding one chain link's body, shape and pin joint. -/
def jointedSpace : Space :=
  ⟨[SpaceObj.body 0, SpaceObj.shape 1, SpaceObj.constraint 2]⟩

/-- A chain link whose body, shape and single pin joint are the objects of
`jointedSpace`. -/
def jointedLink : ChainLink :=
  ⟨⟨1, 5, 0⟩, Vec2.zero,
    ⟨0, 1, 1, Vec2.zero, Vec2.zero, Vec2.zero, 0, BodyType.dynamic⟩,
    ⟨1, 5, Vec2.zero, 0⟩, [⟨2, 0, 0, Vec2.zero⟩]⟩

theorem removeMany_cons_eq (s : Space) (o : SpaceObj) (os : List SpaceObj) :
    s.removeMany (o :: os) =
      match s.removeObj o with
      | Except.ok s1 => s1.removeMany os
      | Except.error e => Except.error e := rfl

theorem removeMany_ok_subset (os : List SpaceObj) :
    ∀ (s t : Space), s.removeMany os = Except.ok t →
      t.objects ⊆ s.objects := by
  induction os with
  | nil =>
    intro s t h
    simp only [Space.removeMany] at h
    cases h
    exact List.Subset.refl _
  | cons o os ih =>
    intro s t h
    rw [removeMany_cons_eq] at h
    cases hx : s.removeObj o with
    | ok s1 =>
      rw [hx] at h
      have hsub : s1.objects ⊆ s.objects := by
        unfold Space.removeObj at hx
        by_cases hmem : o ∈ s.objects
        · rw [if_pos hmem] at hx
          cases hx
          exact List.erase_subset _ _
        · rw [if_neg hmem] at hx
          cases hx
      exact fun x hxm => hsub (ih s1 t h hxm)
    | error e =>
      rw [hx] at h
      cases h

/-- C6 (amended).  Removal is not idempotent: once
`remove_from_space` has succeeded on a space with no duplicate
registrations, calling it again on the result raises pymunk's
"Object not in space" error — repeated teardown on the same objects is
unsafe. -/
theorem remove_from_space_second_call_errors (l : ChainLink) (s s1 : Space)
    (hnd : s.objects.Nodup) (h : l.remove_from_space s = Except.ok s1) :
    l.remove_from_space s1 = Except.error "Object not in space" := by
  unfold ChainLink.remove_from_space at h ⊢
  rw [removeMany_cons_eq] at h
  cases hx : s.removeObj (SpaceObj.body l.body.id) with
  | ok s2 =>
    rw [hx] at h
    have hmem : SpaceObj.body l.body.id ∈ s.objects := by
      unfold Space.removeObj at hx
      by_cases hm : SpaceObj.body l.body.id ∈ s.objects
      · exact hm
      · rw [if_neg hm] at hx
        cases hx
    have hs2 : s2.objects = s.objects.erase (SpaceObj.body l.body.id) := by
      unfold Space.removeObj at hx
      rw [if_pos hmem] at hx
      cases hx
      rfl
    have hnotin : SpaceObj.body l.body.id ∉ s1.objects := by
      intro hin
      have hsub := removeMany_ok_subset _ _ _ h hin
      rw [hs2] at hsub
      exact ((hnd.mem_erase_iff).mp hsub).1 rfl
    rw [removeMany_cons_eq]
    have hx1 : s1.removeObj (SpaceObj.body l.body.id) =
        Except.error "Object not in space" := by
      unfold Space.removeObj
      rw [if_neg hnotin]
    rw [hx1]
  | error e =>
    rw [hx] at h
    cases h

theorem remove_from_space_second_call_errors_witness :
    jointedLink.remove_from_space emptySpace =
      Except.error "Object not in space" :=
  remove_from_space_second_call_errors jointedLink jointedSpace emptySpace
    (by decide) rfl

/-- C6 counterexample.  A first teardown of a link (body, shape and one pin
joint) empties the space, and the very same teardown called a second time is
not a no-op: it raises pymunk's "Object not in space" error. -/
theorem remove_twice_raises :
    jointedLink.remove_from_space jointedSpace = Except.ok emptySpace ∧
    jointedLink.remove_from_space emptySpace =
      Except.error "Object not in space" :=
  ⟨rfl, rfl⟩

/-- C8.  `update` on a composite with N owned segments records exactly one
force application per segment — the segment's drag force, applied at the
segment's current position — and changes nothing else: link/part counts,
body ids, shapes, constraints, positions and velocities are all unchanged
(only the bodies' force/torque accumulators move).  For the Stickman, N is
its 8 body parts. -/
theorem composite_update_one_force_per_segment (sw : Swing) (st : Stickman) :
    (sw.update).2 = sw.links.map (fun l => (l.drag_force, l.position)) ∧
    (sw.update).2.length = sw.links.length ∧
    (sw.update).1.links.map (fun l => l.body.position) =
      sw.links.map (fun l => l.body.position) ∧
    (sw.update).1.links.map (fun l => l.body.velocity) =
      sw.links.map (fun l => l.body.velocity) ∧
    (sw.update).1.links.map (fun l => l.body.id) =
      sw.links.map (fun l => l.body.id) ∧
    (sw.update).1.links.map (fun l => l.shape) =
      sw.links.map (fun l => l.shape) ∧
    (sw.update).1.links.map (fun l => l.constraints) =
      sw.links.map (fun l => l.constraints) ∧
    (st.update).2 = st.body_parts.map (fun p => (p.drag_force, p.position)) ∧
    (st.update).2.length = 8 ∧
    (st.update).1.body_parts.map (fun p => p.position) =
      st.body_parts.map (fun p => p.position) ∧
    (st.update).1.body_parts.map (fun p => p.velocity) =
      st.body_parts.map (fun p => p.velocity) := by
  refine ⟨?_, ?_, ?_, ?_, ?_, ?_, ?_, ?_, ?_, ?_, ?_⟩
  · exact List.map_congr_left fun l _ => rfl
  · simp [Swing.update]
  · simp only [Swing.update, List.map_map]
    rfl
  · simp only [Swing.update, List.map_map]
    rfl
  · simp only [Swing.update, List.map_map]
    rfl
  · simp only [Swing.update, List.map_map]
    rfl
  · simp only [Swing.update, List.map_map]
    rfl
  · exact List.map_congr_left fun p _ => by cases p <;> rfl
  · rfl
  · rfl
  · rfl

end PymunkSwing
